import Mathlib

/-!
Shallow embedding of the identity/feed frontend (transactoors/monorepo).

The JavaScript source is embedded as executable Lean definitions:

* `getCookie` — src/unnamed/part_000 lines 11-26 (`utils.js`);
* `ensAndAddress`, `getAbbrAddress` — src/frontend/src/components/EnsAndAddress.js;
* `determineProfilePic`, `pfpUrlEffectStep`, `renderAvatar`,
  `applyFetchProfileResponse`, `handleFollow` — the `Profile` component in
  src/frontend/src/index.js lines 86-235;
* `handleSubmit` — src/frontend/src/pages/CreateProfile/CreateProfileForm.js lines 24-42;
* `handleFileSubmit` — the `FileUpload` component in src/unnamed/part_001 lines 26-55.

JavaScript runtime values that matter to these components (null vs undefined vs
string, truthiness, operator precedence of `!` over `in`, `Array.prototype.split`)
are modelled explicitly; React state updates are modelled as explicit state
passing, an effect body as a step function on the state it reads and writes.
-/

/-- A JavaScript value as these components use them: `null`, `undefined`, or a
string.  `JsVal.str` covers both profile image URLs and the ENS avatar data. -/
inductive JsVal where
  | null
  | undefined
  | str (s : String)
deriving DecidableEq

/-- The off-chain profile record as the frontend reads it from the backend JSON.
`image := none` models a JSON object without an `"image"` key (the `profileData`
state starts as the empty object `{}`). -/
structure ProfileData where
  image : Option String
  bio : Option String
deriving DecidableEq

/-- `profileData` as initialised by `useState({})` in index.js line 88: an
object with no keys. -/
def emptyProfileData : ProfileData := { image := none, bio := none }

/-! ## JavaScript string primitives used by `utils.js` and `EnsAndAddress.js` -/

/-- Prepend a character to the first segment of a split result; on an empty
list of segments start a fresh one (`jsSplitList` never produces an empty
list, so the first case cannot arise there). -/
def consHead (c : Char) : List (List Char) → List (List Char)
  | [] => [[c]]
  | h :: t => (c :: h) :: t

/-- `String.prototype.split` with a one-character separator, on the character
list: `"".split(s)` is `[""]`, separators at the ends produce empty segments. -/
def jsSplitList (sep : Char) : List Char → List (List Char)
  | [] => [[]]
  | c :: cs => if c = sep then [] :: jsSplitList sep cs else consHead c (jsSplitList sep cs)

/-- JavaScript `s.split(sep)` for a one-character separator `sep`. -/
def jsSplit (sep : Char) (s : String) : List String :=
  (jsSplitList sep s.toList).map List.asString

/-- JavaScript array indexing `a[i]`: out-of-range reads give `undefined`;
`getCookie` feeds the result to `decodeURIComponent`, which stringifies
`undefined` to `"undefined"`. -/
def jsIndex : List String → Nat → String
  | [], _ => "undefined"
  | x :: _, 0 => x
  | _ :: xs, n + 1 => jsIndex xs n

/-- JavaScript `s.startsWith(pre)`. -/
def jsStartsWith (s pre : String) : Bool :=
  pre.toList.isPrefixOf s.toList

/-- JavaScript `String.prototype.trim`, modelled as dropping whitespace from
both ends. -/
def jsTrim (s : String) : String := s.trim

/-! ## `getCookie` (src/unnamed/part_000, lines 11-26) -/

/-- The trimmed cookie entries: `document.cookie.split(';').map(c => c.trim())`. -/
def cookieEntries (documentCookie : String) : List String :=
  (jsSplit ';' documentCookie).map jsTrim

/-- `getCookie(name)` from utils.js.  `decode` stands for the host's
`decodeURIComponent`; `documentCookie` for the ambient `document.cookie`
string.  `!document.cookie` is truthy-negation of a string: true exactly for
the empty string. -/
def getCookie (decode : String → String) (documentCookie name : String) : Option String :=
  if documentCookie = "" then none
  else
    match (cookieEntries documentCookie).filter (fun c => jsStartsWith c (name ++ "=")) with
    | [] => none
    | c :: _ => some (decode (jsIndex (jsSplit '=' c) 1))

/-- The first trimmed cookie entry starting with `name ++ "="` — the
specification-side reading of the filter-then-index-zero in `getCookie`. -/
def firstMatchingEntry (documentCookie name : String) : Option String :=
  (cookieEntries documentCookie).find? (fun c => jsStartsWith c (name ++ "="))

/-- The segment of `c` between its first `'='` and the following `'='` (to the
end when there is no second `'='): the specification-side reading of
`c.split('=')[1]` for an entry containing `'='`. -/
def segmentAfterFirstEq (c : String) : String :=
  ((((c.toList.dropWhile (fun ch => ch != '=')).drop 1).takeWhile (fun ch => ch != '='))).asString

/-! ## `EnsAndAddress` (src/frontend/src/components/EnsAndAddress.js) -/

/-- JavaScript `!s` on a string `s`: true exactly when the string is empty. -/
def jsStringNot (s : String) : Bool := s == ""

/-- The property key a boolean is coerced to by `b in obj`. -/
def jsBoolKey (b : Bool) : String := if b then "true" else "false"

/-- The guard expression `! "address" in props` (line 15): `!` binds tighter
than `in`, so this is `(!"address") in props`, i.e. a lookup of the key
`"false"` among the props' keys. -/
def missingAddressGuard (propsKeys : List String) : Bool :=
  propsKeys.contains (jsBoolKey (jsStringNot "address"))

/-- JavaScript `s.substr(start, len)`. -/
def jsSubstr (s : String) (start len : Nat) : String :=
  ((s.toList.drop start).take len).asString

/-- `getAbbrAddress` (lines 10-12): the first `substr` is applied to the
function's argument, the second to `props.address`; the component calls it
with `props.address`, so both coincide at every call site. -/
def getAbbrAddress (address propsAddress : String) : String :=
  jsSubstr address 2 5 ++ "..." ++ jsSubstr propsAddress 37 5

/-- What the `EnsAndAddress` component renders. -/
inductive EnsView where
  | missingAddress
  | loading
  | errorFetching
  | nameWithAbbr (name : String) (abbr : String)
  | abbrOnly (abbr : String)
deriving DecidableEq

/-- The exception a JavaScript call `undefined.substr(...)` raises. -/
def jsSubstrOfUndefined : String := "TypeError: cannot read substr of undefined"

/-- The `EnsAndAddress` component (lines 3-32).  `propsKeys` are the keys of
the props object, `propsAddress` its `address` value (`none` when absent),
`data`/`isError`/`isLoading` the `useEnsName` result (`data = none` models a
resolved lookup with no registered name, JavaScript `null`).  Calling
`getAbbrAddress` on an absent address throws, modelled by `Except.error`. -/
def ensAndAddress (propsKeys : List String) (propsAddress : Option String)
    (data : Option String) (isError isLoading : Bool) : Except String EnsView :=
  if missingAddressGuard propsKeys then Except.ok EnsView.missingAddress
  else if isLoading then Except.ok EnsView.loading
  else if isError then Except.ok EnsView.errorFetching
  else
    match propsAddress with
    | none => Except.error jsSubstrOfUndefined
    | some a =>
      match data with
      | some d => Except.ok (EnsView.nameWithAbbr d (getAbbrAddress a a))
      | none => Except.ok (EnsView.abbrOnly (getAbbrAddress a a))

/-! ## The `Profile` component (src/frontend/src/index.js, lines 86-235) -/

/-- `determineProfilePic` (lines 95-102), as a function of the profile data and
ENS avatar data it reads: if the profile has an `image` key whose value is not
`""`, the new `pfpUrl` is that image, otherwise it is `ensAvatar["data"]`
(which is `undefined` while the ENS lookup is pending and `null` when it
resolved without an avatar). -/
def determineProfilePic (profileData : ProfileData) (ensData : JsVal) : JsVal :=
  match profileData.image with
  | some img => if img = "" then ensData else JsVal.str img
  | none => ensData

/-- The body of the effect on `[pfpUrl]` (lines 135-142), as a step on
`pfpUrl`: return unchanged when `pfpUrl === ensAvatar.data`; otherwise set it
to `ensAvatar.data` whenever that datum is not the empty string. -/
def pfpUrlEffectStep (ensData pfpUrl : JsVal) : JsVal :=
  if pfpUrl = ensData then pfpUrl
  else if ensData ≠ JsVal.str "" then ensData
  else pfpUrl

/-- The avatar element rendered for the profile (lines 154-171): the Blockies
identicon generated from the address when `pfpUrl === null`, otherwise an
image whose `src` is the current `pfpUrl`. -/
inductive AvatarView where
  | generated (seed : String)
  | image (src : JsVal)
deriving DecidableEq

/-- Lines 154-171 of index.js. -/
def renderAvatar (address : String) (pfpUrl : JsVal) : AvatarView :=
  if pfpUrl = JsVal.null then AvatarView.generated address else AvatarView.image pfpUrl

/-- `useState(null)` for `pfpUrl` (line 91). -/
def pfpInit : JsVal := JsVal.null

/-- The avatar views the component emits while the ENS (naming) lookup is still
pending (`ensAvatar["data"] = undefined` throughout), in the scenario where
the profile response arrives first: the mount render, the render after the
`[pfpUrl]` effect first runs, the render after the profile response is
applied (`determineProfilePic`), and the render after the effect runs again. -/
def viewsBeforeNamingResolves (address : String) (profileData : ProfileData) : List AvatarView :=
  let p0 := pfpInit
  let p1 := pfpUrlEffectStep JsVal.undefined p0
  let p2 := determineProfilePic profileData JsVal.undefined
  let p3 := pfpUrlEffectStep JsVal.undefined p2
  [renderAvatar address p0, renderAvatar address p1, renderAvatar address p2,
    renderAvatar address p3]

/-- The avatar views emitted once both sources are resolved for the current
address: `determineProfilePic` runs on the profile response, then the
`[pfpUrl]` effect runs (and runs again after any update it makes) until the
state is stable. -/
def resolvedAvatarTrace (address : String) (profileData : ProfileData) (ensData : JsVal) :
    List AvatarView :=
  let p1 := determineProfilePic profileData ensData
  let p2 := pfpUrlEffectStep ensData p1
  let p3 := pfpUrlEffectStep ensData p2
  [renderAvatar address p1, renderAvatar address p2, renderAvatar address p3]

/-- Applying the response of the `fetchProfile` call (lines 104-117) that was
issued for address `issuedFor`, arriving while the page shows `activeNow`: a
`200` response stores its body in `profileData` unconditionally — the function
inspects neither `issuedFor` nor `activeNow` — a `404` or any other status
only logs. -/
def applyFetchProfileResponse (issuedFor activeNow : String) (status : Nat)
    (body displayed : ProfileData) : ProfileData :=
  if status == 200 then body else displayed

/-- The request `handleFollow` (lines 119-128) issues. -/
structure FollowRequest where
  url : String
  csrfToken : Option String
deriving DecidableEq

/-- `handleFollow` (lines 119-128): build the URL, attach the CSRF cookie, POST
— and nothing else.  The response (`networkSuccess`) is never inspected, no
local state is touched, and no error is surfaced; the returned triple is the
issued request, the local profile state afterwards, and the error surfaced to
the caller. -/
def handleFollow (decode : String → String) (documentCookie baseAPI address : String)
    (profileData : ProfileData) (networkSuccess : Bool) :
    FollowRequest × ProfileData × Option String :=
  ({ url := baseAPI ++ "/" ++ address ++ "/follow/",
     csrfToken := getCookie decode documentCookie "csrftoken" },
   profileData, none)

/-! ## `CreateProfileForm.handleSubmit` (CreateProfileForm.js, lines 24-42) -/

/-- JavaScript truthiness of a number: every number but `0` (and `NaN`) is
truthy. -/
def jsTruthyNat (n : Nat) : Bool := n != 0

/-- `handleSubmit`: when connected, POST the form and test
`formRes.status === 200 || 201`.  The literal `201` is its own disjunct, so
the condition is `(status === 200) || truthy(201)`.  The result is the profile
form state afterwards and whether the error branch (`console.log('error posting
data')`) ran. -/
def handleSubmit (isConnected : Bool) (status : Nat) (profile initialState : ProfileData) :
    ProfileData × Bool :=
  if !isConnected then (profile, false)
  else if status == 200 || jsTruthyNat 201 then (initialState, false)
  else (profile, true)

/-! ## `FileUpload.handleFileSubmit` (src/unnamed/part_001, lines 26-55) -/

/-- The retrieval-URI prefix hardcoded at line 44. -/
def ipfsGatewayPrefix : String := "https://www.ipfs.com/ipfs/"

/-- `handleFileSubmit`: return unchanged when no wallet is connected; store the
blob obtaining the content identifier `cid`; when the upload response has
`data.ok`, set the profile's `image` to the gateway prefix concatenated with
`cid` (spreading the previous profile, so every other field is preserved);
otherwise only log, leaving the profile unchanged. -/
def handleFileSubmit (isConnected : Bool) (cid : String) (uploadOk : Bool)
    (profile : ProfileData) : ProfileData :=
  if !isConnected then profile
  else if uploadOk then { profile with image := some (ipfsGatewayPrefix ++ cid) }
  else profile

/-! ## Lemmas about the JavaScript split -/

theorem jsSplitList_cons (sep c : Char) (cs : List Char) :
    jsSplitList sep (c :: cs) =
      if c = sep then [] :: jsSplitList sep cs else consHead c (jsSplitList sep cs) := rfl

theorem jsSplitList_head (sep : Char) (cs : List Char) :
    ∃ t, jsSplitList sep cs = cs.takeWhile (fun c => c != sep) :: t := by
  induction cs with
  | nil => exact ⟨[], rfl⟩
  | cons c cs ih =>
    by_cases hc : c = sep
    · exact ⟨jsSplitList sep cs, by simp [jsSplitList_cons, hc]⟩
    · obtain ⟨t, ht⟩ := ih
      exact ⟨t, by simp [jsSplitList_cons, hc, ht, consHead]⟩

theorem jsSplitList_pair (sep : Char) (cs : List Char) (h : sep ∈ cs) :
    ∃ t, jsSplitList sep cs =
      cs.takeWhile (fun c => c != sep) ::
        ((cs.dropWhile (fun c => c != sep)).drop 1).takeWhile (fun c => c != sep) :: t := by
  induction cs with
  | nil => cases h
  | cons c cs ih =>
    by_cases hc : c = sep
    · obtain ⟨t, ht⟩ := jsSplitList_head sep cs
      exact ⟨t, by simp [jsSplitList_cons, hc, ht]⟩
    · have h' : sep ∈ cs := by
        rcases List.mem_cons.mp h with h1 | h2
        · exact absurd h1.symm hc
        · exact h2
      obtain ⟨t, ht⟩ := ih h'
      exact ⟨t, by simp [jsSplitList_cons, hc, ht, consHead]⟩

theorem filter_head?_eq_find? {α : Type} (p : α → Bool) (l : List α) :
    (l.filter p).head? = l.find? p := by
  induction l with
  | nil => rfl
  | cons a l ih =>
    cases h : p a with
    | true => simp [List.filter_cons, h, List.find?_cons_of_pos]
    | false => simp [List.filter_cons, h, List.find?_cons_of_neg, ih]

theorem jsIndex_one_jsSplit (c : String) (h : ('=' : Char) ∈ c.toList) :
    jsIndex (jsSplit '=' c) 1 = segmentAfterFirstEq c := by
  obtain ⟨t, ht⟩ := jsSplitList_pair '=' c.toList h
  unfold jsSplit segmentAfterFirstEq
  rw [ht]
  rfl

theorem eq_mem_of_matching (c name : String) (h : jsStartsWith c (name ++ "=") = true) :
    ('=' : Char) ∈ c.toList := by
  unfold jsStartsWith at h
  have hp : (name ++ "=").toList <+: c.toList := List.isPrefixOf_iff_prefix.mp h
  apply hp.subset
  simp [String.toList, String.data_append]

/-! ## Claim theorems -/

/-- C9: `getCookie(name)` returns `null` when `document.cookie` is empty or no
trimmed entry starts with `name + "="`; otherwise it returns
`decodeURIComponent` applied to the segment of the first matching entry
between its first `'='` and the next `'='` — so a value containing `'='` is
truncated at that character. -/
theorem c9_getCookie_characterization (decode : String → String)
    (documentCookie name : String) :
    getCookie decode documentCookie name =
      if documentCookie = "" then none
      else
        match firstMatchingEntry documentCookie name with
        | none => none
        | some c => some (decode (segmentAfterFirstEq c)) := by
  unfold getCookie firstMatchingEntry
  by_cases hdc : documentCookie = ""
  · simp [hdc]
  · rw [if_neg hdc, if_neg hdc, ← filter_head?_eq_find?]
    cases hf : (cookieEntries documentCookie).filter (fun c => jsStartsWith c (name ++ "=")) with
    | nil => rfl
    | cons c t =>
      have hmem : c ∈ (cookieEntries documentCookie).filter
          (fun c => jsStartsWith c (name ++ "=")) := by
        rw [hf]; exact List.mem_cons_self c t
      have hsw : jsStartsWith c (name ++ "=") = true := (List.mem_filter.mp hmem).2
      have heq : ('=' : Char) ∈ c.toList := eq_mem_of_matching c name hsw
      simp [jsIndex_one_jsSplit c heq]

/-- C1: contrary to the no-flicker property, in the scenario where the profile
response arrives before the naming (ENS) lookup resolves, the very first
avatar the component emits — with the naming data still pending — is already
the generated identicon keyed by the address (`pfpUrl` starts as `null` and
line 154 renders Blockies for `null`); no pending marker exists in the code. -/
theorem c1_generated_avatar_before_naming (address : String) (profileData : ProfileData) :
    (viewsBeforeNamingResolves address profileData).head? =
      some (AvatarView.generated address) := rfl

/-- C2: contrary to the custom > naming precedence, with both sources resolved,
a non-empty custom avatar `"customX"` and a naming avatar `"ensY"`, the
component first shows the custom avatar and then the `[pfpUrl]` effect
(lines 135-142) overwrites it with the naming avatar, which is what stays
displayed. -/
theorem c2_custom_avatar_overwritten :
    resolvedAvatarTrace "0xabc" { image := some "customX", bio := none } (JsVal.str "ensY") =
      [AvatarView.image (JsVal.str "customX"), AvatarView.image (JsVal.str "ensY"),
        AvatarView.image (JsVal.str "ensY")] := rfl

/-- C3: contrary to stale-response suppression, a `200` response of a profile
fetch issued for `issuedFor` is stored unconditionally when it arrives — the
code compares no address tag, so the result is the stale body even when the
active address `activeNow` differs from `issuedFor`. -/
theorem c3_stale_response_applied (issuedFor activeNow : String)
    (body displayed : ProfileData) :
    applyFetchProfileResponse issuedFor activeNow 200 body displayed = body := rfl

/-- C4: contrary to the optimistic-update contract, `handleFollow` performs no
local edge mutation at all and surfaces no error: whatever the network
outcome, the local profile state is returned unchanged and the surfaced error
is `none`. -/
theorem c4_follow_mutates_nothing (decode : String → String)
    (documentCookie baseAPI address : String) (profileData : ProfileData)
    (networkSuccess : Bool) :
    (handleFollow decode documentCookie baseAPI address profileData networkSuccess).2 =
      (profileData, none) := rfl

/-- C5: contrary to the claim that a non-success response leaves the form
unmutated and surfaces the error, `handleSubmit` resets the form to
`initialState` and skips the error branch for every response status, because
`status === 200 || 201` is always true (`201` is truthy). -/
theorem c5_form_reset_regardless_of_status (status : Nat)
    (profile initialState : ProfileData) :
    handleSubmit true status profile initialState = (initialState, false) := by
  have h : jsTruthyNat 201 = true := rfl
  simp [handleSubmit, h]

/-- C6 (amended): when the naming lookup resolves and reports no registered
name, the component degrades to the abbreviated-address fallback; when the
naming provider errors, however, it renders an error marker instead of the
fallback identity. -/
theorem c6_unregistered_degrades_error_does_not (keys : List String) (addr : String)
    (data : Option String) (hk : keys.contains "false" = false) :
    ensAndAddress keys (some addr) none false false =
      Except.ok (EnsView.abbrOnly (getAbbrAddress addr addr))
    ∧ ensAndAddress keys (some addr) data true false = Except.ok EnsView.errorFetching := by
  have hg : missingAddressGuard keys = false := by
    unfold missingAddressGuard jsBoolKey jsStringNot
    simpa using hk
  constructor <;> simp [ensAndAddress, hg]

/-- C6 counterexample: with the naming provider erroring for a present address,
the component returns the error marker, not the abbreviated-address fallback
the claim requires. -/
theorem c6_error_result_not_fallback :
    ensAndAddress ["address"] (some "0xb794f5ea0ba39494ce839613fffba74279579268") none
        true false = Except.ok EnsView.errorFetching
    ∧ EnsView.errorFetching ≠
        EnsView.abbrOnly (getAbbrAddress "0xb794f5ea0ba39494ce839613fffba74279579268"
          "0xb794f5ea0ba39494ce839613fffba74279579268") := by
  constructor
  · rfl
  · decide

theorem c6_witness :
    ((["address"] : List String).contains "false" = false)
    ∧ ensAndAddress ["address"] (some "0xb794f5ea0ba39494ce839613fffba74279579268") none
        false false =
        Except.ok (EnsView.abbrOnly (getAbbrAddress "0xb794f5ea0ba39494ce839613fffba74279579268"
          "0xb794f5ea0ba39494ce839613fffba74279579268"))
    ∧ ensAndAddress ["address"] (some "0xb794f5ea0ba39494ce839613fffba74279579268")
        (some "alice.eth") true false = Except.ok EnsView.errorFetching :=
  ⟨by decide,
   (c6_unregistered_degrades_error_does_not ["address"]
     "0xb794f5ea0ba39494ce839613fffba74279579268" (some "alice.eth") (by decide)).1,
   (c6_unregistered_degrades_error_does_not ["address"]
     "0xb794f5ea0ba39494ce839613fffba74279579268" (some "alice.eth") (by decide)).2⟩

/-- C7: with a resolved naming lookup (not loading, no error) and the props
carrying no `"false"` key, the displayed label follows naming-display-name >
abbreviated address: an existing name is rendered together with the
abbreviated address, an absent name falls back to the abbreviated address,
which `getAbbrAddress` derives deterministically from the address string. -/
theorem c7_display_label_precedence (keys : List String) (addr ensName : String)
    (hk : keys.contains "false" = false) :
    ensAndAddress keys (some addr) (some ensName) false false =
      Except.ok (EnsView.nameWithAbbr ensName (getAbbrAddress addr addr))
    ∧ ensAndAddress keys (some addr) none false false =
      Except.ok (EnsView.abbrOnly (getAbbrAddress addr addr)) := by
  have hg : missingAddressGuard keys = false := by
    unfold missingAddressGuard jsBoolKey jsStringNot
    simpa using hk
  constructor <;> simp [ensAndAddress, hg]

theorem c7_witness :
    ((["address", "className"] : List String).contains "false" = false)
    ∧ (ensAndAddress ["address", "className"]
        (some "0xb794f5ea0ba39494ce839613fffba74279579268") (some "alice.eth") false false =
        Except.ok (EnsView.nameWithAbbr "alice.eth"
          (getAbbrAddress "0xb794f5ea0ba39494ce839613fffba74279579268"
            "0xb794f5ea0ba39494ce839613fffba74279579268"))
      ∧ ensAndAddress ["address", "className"]
          (some "0xb794f5ea0ba39494ce839613fffba74279579268") none false false =
          Except.ok (EnsView.abbrOnly (getAbbrAddress "0xb794f5ea0ba39494ce839613fffba74279579268"
            "0xb794f5ea0ba39494ce839613fffba74279579268"))) :=
  ⟨by decide,
   c7_display_label_precedence ["address", "className"]
     "0xb794f5ea0ba39494ce839613fffba74279579268" "alice.eth" (by decide)⟩

/-- C8: for a connected wallet, a successful upload (content identifier `cid`,
response `ok`) sets the profile's `image` to the fixed gateway prefix
concatenated with `cid` and preserves every other field; a failed upload, or
no connected wallet, leaves the profile unchanged. -/
theorem c8_upload_sets_gateway_uri (cid : String) (profile : ProfileData) :
    (handleFileSubmit true cid true profile).image =
      some ("https://www.ipfs.com/ipfs/" ++ cid)
    ∧ (handleFileSubmit true cid true profile).bio = profile.bio
    ∧ handleFileSubmit true cid false profile = profile
    ∧ handleFileSubmit false cid true profile = profile :=
  ⟨rfl, rfl, rfl, rfl⟩

/-- C10: for a props object without a key named `"false"`, the guard
`! "address" in props` — which by precedence tests the key `"false"` — is
false, so the component never renders the missing-address marker; with the
address actually absent (and the lookup neither loading nor erroring) the
render instead reaches `getAbbrAddress` on the undefined address, which
throws. -/
theorem c10_missing_address_guard_never_fires (keys : List String)
    (propsAddress data : Option String) (isError isLoading : Bool)
    (hk : keys.contains "false" = false) :
    missingAddressGuard keys = false
    ∧ ensAndAddress keys propsAddress data isError isLoading ≠
        Except.ok EnsView.missingAddress
    ∧ ensAndAddress keys none data false false = Except.error jsSubstrOfUndefined := by
  have hg : missingAddressGuard keys = false := by
    unfold missingAddressGuard jsBoolKey jsStringNot
    simpa using hk
  refine ⟨hg, ?_, by simp [ensAndAddress, hg]⟩
  cases isLoading <;> cases isError <;> cases propsAddress <;> cases data <;>
    simp [ensAndAddress, hg]

theorem c10_witness :
    ((["address"] : List String).contains "false" = false)
    ∧ missingAddressGuard ["address"] = false
    ∧ ensAndAddress ["address"] none none false false = Except.error jsSubstrOfUndefined :=
  ⟨by decide,
   (c10_missing_address_guard_never_fires ["address"] none none false false (by decide)).1,
   (c10_missing_address_guard_never_fires ["address"] none none false false (by decide)).2.2⟩
